import Mathlib

/-!
Verification development for the pgonrails repository: shallow embeddings of
the handler logic in supabase edge functions, together with theorems about
the callback receiver, the status state machine, the Livespace response
checks, the meeting-type matcher, the score clamp and the Google token
refresh decision.
-/

set_option maxRecDepth 4096

/-- Truthiness of an optional JS string: `undefined`, `null` and the empty
string are falsy; every other string is truthy. -/
def jsTruthyStr : Option String → Bool
  | none => false
  | some s => s ≠ ""

/-- Truthiness of an optional JS number: `undefined`, `null` and `0` are
falsy. -/
def jsTruthyInt : Option Int → Bool
  | none => false
  | some n => n ≠ 0

/-! ## Callback Receiver (functions/n8n-callback/index.ts)

The embedding covers the request fields and the meeting columns that the
embedded control flow reads or writes.  The JSON shape normalisation for the
`analyze` and `action_items` variants only computes the opaque
`analysis_data` value and is not needed by any claim, so `analysis_data` is
carried as an already-normalised opaque payload.  The Fireflies metadata
fields appended to the same single update statement (lines 238-302 of the
source) do not change the control flow and are elided. -/

/-- Nested `callos_data` object of an n8n-style request body
(n8n-callback/index.ts lines 34-37). -/
structure CallosData where
  meeting_id : Option String
  callback_token : Option String
deriving DecidableEq, Repr

/-- Request body of the callback receiver after the array unwrap, restricted
to the fields read by the embedded control flow. -/
structure CallbackRequest where
  meeting_id : Option String
  callback_token : Option String
  status : Option String
  callos_data : Option CallosData
  analysis_data : Option String
  overall_score : Option Int
  transcript : Option String
  title : Option String
  meeting_date : Option String
  duration : Option Int
deriving DecidableEq, Repr

/-- Meeting row as selected by the callback receiver
(n8n-callback/index.ts lines 156-160). -/
structure MeetingRow where
  id : String
  n8n_callback_token : Option String
  organization_id : String
  processing_status : String
deriving DecidableEq, Repr

/-- The `updateData` object built by the callback receiver
(n8n-callback/index.ts lines 188-224); a `none` field is absent from the
update and leaves the stored column unchanged. -/
structure MeetingUpdate where
  processing_status : String
  n8n_callback_token : Option String
  analysis_data : Option String
  overall_score : Option Int
  transcript : Option String
  title : Option String
  meeting_date : Option String
  duration : Option Int
deriving DecidableEq, Repr

/-- Result of one callback receiver invocation: an HTTP 500 error response
with a message, the HTTP 200 duplicate-ignored response issued without any
database write, or the HTTP 200 success response together with the single
meeting update it applies. -/
inductive CallbackResult where
  | errorResp (message : String)
  | duplicateResp
  | successResp (update : MeetingUpdate)
deriving DecidableEq, Repr

/-- Meeting id presented by a request: the `callos_data` value overrides the
top-level field when `callos_data` is present (lines 30-37). -/
def presentedMeetingId (req : CallbackRequest) : Option String :=
  match req.callos_data with
  | some cd => cd.meeting_id
  | none => req.meeting_id

/-- Callback token presented by a request: the `callos_data` value overrides
the top-level field when `callos_data` is present (lines 30-37). -/
def presentedToken (req : CallbackRequest) : Option String :=
  match req.callos_data with
  | some cd => cd.callback_token
  | none => req.callback_token

/-- Effective status of a request: `requestBody.status || "completed"`
(line 32); a missing or empty status defaults to the string completed. -/
def effectiveStatus (s : Option String) : String :=
  match s with
  | none => "completed"
  | some v => if v = "" then "completed" else v

/-- Clamp applied to `overall_score` before it is stored:
`Math.max(0, Math.min(100, overall_score))` (line 199). -/
def clampScore (x : Int) : Int :=
  max 0 (min 100 x)

/-- The update object the callback receiver writes on the success path
(lines 188-224): status mapped to completed or failed, token cleared, score
clamped, and the truthy optional fields copied over. -/
def callbackUpdate (req : CallbackRequest) : MeetingUpdate :=
  { processing_status :=
      if effectiveStatus req.status = "failed" then "failed" else "completed"
    n8n_callback_token := none
    analysis_data := req.analysis_data
    overall_score := req.overall_score.map clampScore
    transcript := if jsTruthyStr req.transcript then req.transcript else none
    title := if jsTruthyStr req.title then req.title else none
    meeting_date := if jsTruthyStr req.meeting_date then req.meeting_date else none
    duration := req.duration }

/-- Control flow of the callback receiver (n8n-callback/index.ts lines
30-236): require a truthy meeting id and token, look the meeting up, reject
on token mismatch, short-circuit with the duplicate response when the
meeting is already completed, and otherwise apply the single update. -/
def n8nCallback (req : CallbackRequest) (lookup : Option MeetingRow) :
    CallbackResult :=
  if ¬ (jsTruthyStr (presentedMeetingId req) ∧ jsTruthyStr (presentedToken req)) then
    .errorResp "meeting_id and callback_token are required"
  else
    match lookup with
    | none => .errorResp "Meeting not found"
    | some meeting =>
      if meeting.n8n_callback_token ≠ presentedToken req then
        .errorResp "Invalid callback token"
      else if meeting.processing_status = "completed" then
        .duplicateResp
      else
        .successResp (callbackUpdate req)

/-! ## Webhook relay, token path (src/unnamed/part_002, lines 239-292)

Only the meeting status writes are embedded: the insert that creates the
meeting in the pending state and the update issued just before the forward
to the automation endpoint. -/

/-- Row inserted by the token-path webhook handler for a new meeting
(part_002 lines 239-251). -/
structure MeetingInsert where
  organization_id : String
  user_id : String
  title : String
  transcript : String
  transcript_source : String
  webhook_source : String
  webhook_metadata : String
  processing_status : String
deriving DecidableEq, Repr

/-- Meeting created by the token-path webhook handler: raw payload preserved
and `processing_status` set to pending (part_002 lines 239-251). -/
def webhookCreateMeeting (organizationId userId sourceType payload nowIso : String) :
    MeetingInsert :=
  { organization_id := organizationId
    user_id := userId
    title := sourceType ++ " - " ++ nowIso
    transcript := ""
    transcript_source := sourceType
    webhook_source := sourceType
    webhook_metadata := payload
    processing_status := "pending" }

/-- Status update issued by the token-path webhook handler right before it
forwards the assembled payload (part_002 lines 285-292); the
`processing_started_at` timestamp set in the same update is elided. -/
def webhookForwardUpdate (m : MeetingRow) : MeetingRow :=
  { m with processing_status := "processing" }

/-! ## Retry endpoint (refresh-google-token/index.ts, second handler,
`retry-n8n-forward`, lines 163-328)

The handler is embedded as a function of its guard outcomes; the organization
is represented by its optional `webhook_target_url`. -/

/-- Result of a retry invocation: an error response with an HTTP status and
a message, or a forward together with the meeting update that the handler
then applies unconditionally. -/
inductive RetryResult where
  | errorResp (status : Nat) (message : String)
  | forwarded (updated : MeetingRow)
deriving DecidableEq, Repr

/-- Control flow of the `retry-n8n-forward` handler (lines 163-328): after
the guards pass, the meeting status is updated to processing with no check
of its current value. -/
def retryN8nForward (hasMeetingId hasAuth userOk : Bool)
    (superAdmin : Option Bool) (meeting : Option MeetingRow)
    (orgUrl : Option (Option String)) (prepareOk : Bool) : RetryResult :=
  if ¬ hasMeetingId then .errorResp 400 "meeting_id is required"
  else if ¬ hasAuth then .errorResp 401 "Authorization required"
  else if ¬ userOk then .errorResp 401 "Unauthorized"
  else
    match superAdmin with
    | none => .errorResp 500 "Error checking permissions"
    | some false => .errorResp 403 "Only Super Admin can use this function"
    | some true =>
      match meeting with
      | none => .errorResp 404 "Meeting not found"
      | some m =>
        match orgUrl with
        | none => .errorResp 404 "Organization not found"
        | some url =>
          if ¬ jsTruthyStr url then
            .errorResp 400 "No webhook URL configured for this organization"
          else if ¬ prepareOk then
            .errorResp 500 "Failed to prepare payload"
          else
            .forwarded { m with processing_status := "processing" }

/-! ## Livespace response checks (test-crm-connection/index.ts,
match-meeting-type/index.ts second handler, src/unnamed/part_000)

A Livespace HTTP exchange is represented by its HTTP status code and the
decoded JSON body fields that the handlers inspect.  The `token` and
`session_id` fields stand for `data.data.token` and `data.data.session_id`
of the getToken payload. -/

/-- Error object optionally carried in a Livespace response body. -/
structure LsError where
  message : Option String
  code : Option Int
deriving DecidableEq, Repr

/-- A Livespace HTTP response: status code plus the body fields the handlers
read. -/
structure LsResponse where
  httpStatus : Nat
  status : Option Bool
  result : Option Int
  error : Option LsError
  token : Option String
  session_id : Option String
deriving DecidableEq, Repr

/-- JS `Response.ok`: true exactly for status codes 200-299. -/
def jsOk (n : Nat) : Bool :=
  200 ≤ n ∧ n < 300

/-- Classification of a Livespace response by a handler. -/
inductive LsCheck where
  | accept
  | rejectHttp (status : Nat)
  | rejectError (e : LsError)
  | rejectStatusFalse (result : Option Int)
deriving DecidableEq, Repr

/-- Response check of the legacy header-signed Livespace test
(test-crm-connection/index.ts lines 498-506): non-2xx rejected, then only a
present `error` object is rejected; the body field `status` is never
examined. -/
def legacyLivespaceCheck (resp : LsResponse) : LsCheck :=
  if ¬ jsOk resp.httpStatus then .rejectHttp resp.httpStatus
  else
    match resp.error with
    | some e => .rejectError e
    | none => .accept

/-- Response check of the session-signed livespace-proxy handler
(match-meeting-type/index.ts lines 306-358): non-2xx rejected, then a
present `error` object, then `status === false`. -/
def proxyLivespaceCheck (resp : LsResponse) : LsCheck :=
  if ¬ jsOk resp.httpStatus then .rejectHttp resp.httpStatus
  else
    match resp.error with
    | some e => .rejectError e
    | none =>
      if resp.status = some false then .rejectStatusFalse resp.result
      else .accept

/-- Rendering of `data.result` inside a template literal; a numeric code
prints as its decimal digits. -/
def codeStr : Option Int → String
  | some n => toString n
  | none => "undefined"

/-- The getToken step of the session-signed handshake (part_000 lines
17-53): reject non-2xx, then `status === false` with a message carrying the
numeric `result` code, then require a truthy token and session id. -/
def getLivespaceAuth (resp : LsResponse) : Except String (String × String) :=
  if ¬ jsOk resp.httpStatus then
    .error ("Livespace getToken failed (" ++ toString resp.httpStatus ++ ")")
  else if resp.status = some false then
    .error ("Livespace getToken error: code " ++ codeStr resp.result)
  else if jsTruthyStr resp.token ∧ jsTruthyStr resp.session_id then
    .ok (resp.token.getD "", resp.session_id.getD "")
  else
    .error "Livespace getToken: missing token or session_id in response"

/-- The session-signed call sequence (part_000 lines 55-109): getToken must
succeed before the signed follow-up request is issued; the second component
records whether the follow-up request was attempted.  The SHA1 signature
value does not affect this control flow and is elided. -/
def callLivespaceApi (tokenResp apiResp : LsResponse) :
    Except String LsResponse × Bool :=
  match getLivespaceAuth tokenResp with
  | .error e => (.error e, false)
  | .ok _ =>
    if ¬ jsOk apiResp.httpStatus then
      (.error ("Livespace API error (" ++ toString apiResp.httpStatus ++ ")"), true)
    else if apiResp.status = some false then
      (.error ("Livespace API error: code " ++ codeStr apiResp.result), true)
    else
      (.ok apiResp, true)

/-! ## Meeting-Type Matcher (match-meeting-type/index.ts, first handler,
lines 9-141) -/

/-- Row of the `pipedrive_scenarios` table as read by the matcher. -/
structure Scenario where
  organization_id : String
  pipeline_id : Int
  stage_id : Option Int
  deal_status : Option String
  is_active : Bool
  order_index : Int
  meeting_type_id : Option Int
deriving DecidableEq, Repr

/-- Row of the `livespace_scenarios` table (read by the payload assembler,
src/unnamed/part_001 lines 137-149, never by the matcher). -/
structure LsScenario where
  organization_id : String
  meeting_type_id : Int
  process_id : Int
  stage_id : Option Int
  deal_status : Option String
  is_active : Bool
  order_index : Int
deriving DecidableEq, Repr

/-- Row of the `meeting_types` table as read by the default lookup of the
matcher. -/
structure MeetingTypeRow where
  id : Int
  organization_id : String
  is_default : Bool
deriving DecidableEq, Repr

/-- The tables consulted by the matcher and the payload assembler. -/
structure Database where
  pipedrive_scenarios : List Scenario
  livespace_scenarios : List LsScenario
  meeting_types : List MeetingTypeRow
deriving DecidableEq, Repr

/-- The `deal_data` object of a matcher request. -/
structure DealData where
  pipeline_id : Option Int
  stage_id : Option Int
  deal_status : Option String
deriving DecidableEq, Repr

/-- One candidate query of the fallback loop. -/
structure PdQuery where
  pipeline_id : Int
  stage_id : Option Int
  deal_status : Option String
deriving DecidableEq, Repr

/-- JS `x || null` on an optional number: a falsy value becomes null. -/
def jsOrNullInt (o : Option Int) : Option Int :=
  if jsTruthyInt o then o else none

/-- JS `x || null` on an optional string: a falsy value becomes null. -/
def jsOrNullStr (o : Option String) : Option String :=
  if jsTruthyStr o then o else none

/-- The four candidate queries of the matcher, in source order
(match-meeting-type/index.ts lines 36-61): most specific first, each using
`|| null` on the omitted fields. -/
def pipedriveQueries (pipelineId : Int) (dd : DealData) : List PdQuery :=
  [ { pipeline_id := pipelineId
      stage_id := jsOrNullInt dd.stage_id
      deal_status := jsOrNullStr dd.deal_status }
  , { pipeline_id := pipelineId
      stage_id := jsOrNullInt dd.stage_id
      deal_status := none }
  , { pipeline_id := pipelineId
      stage_id := none
      deal_status := jsOrNullStr dd.deal_status }
  , { pipeline_id := pipelineId
      stage_id := none
      deal_status := none } ]

/-- Filter of one candidate query (lines 63-81): organization and
`is_active` and pipeline equality, then `eq` on a truthy stage or `is null`
otherwise, and the same for the deal status.  A scenario with a NULL stage
only matches when the query carries no stage. -/
def scenarioMatches (org : String) (q : PdQuery) (row : Scenario) : Bool :=
  row.organization_id == org && row.is_active &&
    row.pipeline_id == q.pipeline_id &&
    (if jsTruthyInt q.stage_id then row.stage_id == q.stage_id
     else row.stage_id == none) &&
    (if jsTruthyStr q.deal_status then row.deal_status == q.deal_status
     else row.deal_status == none)

/-- First row by ascending `order_index`, keeping the earlier row on ties,
embedding `.order(order_index).limit(1).maybeSingle()`. -/
def firstByOrder (rows : List Scenario) : Option Scenario :=
  rows.foldl
    (fun acc r =>
      match acc with
      | none => some r
      | some b => if r.order_index < b.order_index then some r else acc)
    none

/-- The fallback loop over the candidate queries (lines 63-93): the first
query whose best row carries a truthy `meeting_type_id` wins. -/
def runPdQueries (db : List Scenario) (org : String) :
    List PdQuery → Option Int
  | [] => none
  | q :: rest =>
    match firstByOrder (db.filter (scenarioMatches org q)) with
    | some row =>
      if jsTruthyInt row.meeting_type_id then row.meeting_type_id
      else runPdQueries db org rest
    | none => runPdQueries db org rest

/-- Default lookup (lines 97-113): `maybeSingle` on the rows of the
organization flagged `is_default` yields an id exactly when there is one
such row. -/
def findDefaultMeetingType (mts : List MeetingTypeRow) (org : String) :
    Option Int :=
  match mts.filter (fun t => t.organization_id == org && t.is_default) with
  | [t] => some t.id
  | _ => none

/-- Full matcher (lines 20-119): the scenario loop runs only when
`deal_data` is present with a truthy `pipeline_id`, reading only the
`pipedrive_scenarios` table; a null result falls back to the default
meeting type of the organization. -/
def matchMeetingType (db : Database) (org : String) (dd : Option DealData) :
    Option Int :=
  let fromScenario : Option Int :=
    match dd with
    | some d =>
      if jsTruthyInt d.pipeline_id then
        runPdQueries db.pipedrive_scenarios org
          (pipedriveQueries (d.pipeline_id.getD 0) d)
      else none
    | none => none
  match fromScenario with
  | some id => some id
  | none => findDefaultMeetingType db.meeting_types org

/-- Scenario fold of the payload assembler (part_001 lines 151-184): every
meeting type of the organization is exported together with both its
Pipedrive and its Livespace scenarios, selected by `meeting_type_id`
equality. -/
def foldScenarios (mts : List MeetingTypeRow) (pd : List Scenario)
    (ls : List LsScenario) : List (Int × List Scenario × List LsScenario) :=
  mts.map (fun mt =>
    (mt.id,
     pd.filter (fun s => s.meeting_type_id == some mt.id),
     ls.filter (fun s => s.meeting_type_id == mt.id)))

/-! ## Google token refresh (refresh-google-token/index.ts, first handler,
and src/unnamed/part_001 lines 335-434) -/

/-- Google integration row as read by the refresh handler;
`token_expires_at` is a millisecond epoch timestamp. -/
structure GoogleIntegrationRow where
  access_token_encrypted : String
  refresh_token_encrypted : String
  token_expires_at : Option Int
deriving DecidableEq, Repr

/-- Refresh decision (refresh-google-token/index.ts lines 40-43): refresh
when no expiry is stored or the expiry is less than five minutes away. -/
def shouldRefresh (tokenExpiresAt : Option Int) (now : Int) : Bool :=
  match tokenExpiresAt with
  | none => true
  | some t => t - now < 5 * 60 * 1000

/-- Outcome of the refresh handler: a success body carrying the access token
and the `refreshed` flag, or an error body. -/
inductive GoogleTokenResult where
  | ok (access_token : Option String) (refreshed : Bool)
  | err (message : String)
deriving DecidableEq, Repr

/-- Control flow of the refresh handler (lines 40-132), parameterised by
the decryption RPC and by the optional provider response
`(access_token, expires_in)`; the second component records whether the
provider token endpoint was called.  The persistence of the refreshed token
is a database write with no bearing on the embedded claims and is elided. -/
def refreshGoogleToken (integ : GoogleIntegrationRow) (now : Int)
    (decrypt : String → Option String)
    (refreshResp : Option (String × Int)) : GoogleTokenResult × Bool :=
  if ¬ shouldRefresh integ.token_expires_at now then
    (.ok (decrypt integ.access_token_encrypted) false, false)
  else
    match decrypt integ.refresh_token_encrypted with
    | none => (.err "Failed to decrypt refresh token", false)
    | some _ =>
      match refreshResp with
      | none => (.err "Token refresh failed", true)
      | some (tok, _) => (.ok (some tok) true, true)

/-! ## Concrete fixtures used by the theorems below -/

/-- Baseline callback request: required fields present, nothing else. -/
def reqBase : CallbackRequest :=
  { meeting_id := some "m1", callback_token := some "tok-a", status := none,
    callos_data := none, analysis_data := none, overall_score := none,
    transcript := none, title := none, meeting_date := none, duration := none }

/-- Completed meeting still holding the token tok-a. -/
def mCompleted : MeetingRow :=
  { id := "m1", n8n_callback_token := some "tok-a",
    organization_id := "org1", processing_status := "completed" }

/-- Processing meeting holding the token tok-a. -/
def mProcessing : MeetingRow :=
  { id := "m1", n8n_callback_token := some "tok-a",
    organization_id := "org1", processing_status := "processing" }

/-- Processing meeting whose stored token is the lower-case string abc. -/
def mStoredLower : MeetingRow :=
  { id := "m1", n8n_callback_token := some "abc",
    organization_id := "org1", processing_status := "processing" }

/-- Request carrying an overall score of 150. -/
def req150 : CallbackRequest := { reqBase with overall_score := some 150 }

/-- Request carrying an overall score of minus twenty. -/
def reqNeg20 : CallbackRequest := { reqBase with overall_score := some (-20) }

/-- Request presenting the upper-case token ABC. -/
def reqUpper : CallbackRequest := { reqBase with callback_token := some "ABC" }

/-- Request with the status string error. -/
def reqStatusError : CallbackRequest := { reqBase with status := some "error" }

/-- Request with the status string failed. -/
def reqStatusFailed : CallbackRequest := { reqBase with status := some "failed" }

/-- HTTP 200 Livespace body with status false and result code 4 and no
error object. -/
def lsStatusFalse4 : LsResponse :=
  { httpStatus := 200, status := some false, result := some 4,
    error := none, token := none, session_id := none }

/-- Sample Livespace error object. -/
def lsErrEx : LsError := { message := some "bad", code := some 17 }

/-- HTTP 200 Livespace body carrying an error object. -/
def lsErrBody : LsResponse :=
  { httpStatus := 200, status := none, result := none,
    error := some lsErrEx, token := none, session_id := none }

/-- HTTP 200 Livespace body with status false and result code 7 and no
error object. -/
def lsStatusFalse7 : LsResponse :=
  { httpStatus := 200, status := some false, result := some 7,
    error := none, token := none, session_id := none }

/-- Neutral HTTP 200 Livespace body. -/
def lsApiAny : LsResponse :=
  { httpStatus := 200, status := none, result := none,
    error := none, token := none, session_id := none }

/-- Active scenario on pipeline 1 with NULL stage and NULL status. -/
def sPipelineOnly : Scenario :=
  { organization_id := "org1", pipeline_id := 1, stage_id := none,
    deal_status := none, is_active := true, order_index := 0,
    meeting_type_id := some 101 }

/-- Active scenario on pipeline 1 and stage 5 with NULL status. -/
def sPipelineStage : Scenario :=
  { organization_id := "org1", pipeline_id := 1, stage_id := some 5,
    deal_status := none, is_active := true, order_index := 0,
    meeting_type_id := some 202 }

/-- Database holding exactly the two example scenarios. -/
def db5 : Database :=
  { pipedrive_scenarios := [sPipelineOnly, sPipelineStage],
    livespace_scenarios := [], meeting_types := [] }

/-- Deal context pipeline 1, stage 5, status open. -/
def dd5 : DealData :=
  { pipeline_id := some 1, stage_id := some 5, deal_status := some "open" }

/-- Sample meeting type row. -/
def mtEx : MeetingTypeRow :=
  { id := 9, organization_id := "org1", is_default := false }

/-- Sample Livespace scenario attached to the sample meeting type. -/
def lsScenEx : LsScenario :=
  { organization_id := "org1", meeting_type_id := 9, process_id := 3,
    stage_id := none, deal_status := none, is_active := true, order_index := 0 }

/-- Google integration whose token expires ten minutes after epoch zero. -/
def integ10min : GoogleIntegrationRow :=
  { access_token_encrypted := "enc-acc", refresh_token_encrypted := "enc-ref",
    token_expires_at := some 600000 }

/-- Google integration whose token expires four minutes after epoch zero. -/
def integ4min : GoogleIntegrationRow :=
  { access_token_encrypted := "enc-acc", refresh_token_encrypted := "enc-ref",
    token_expires_at := some 240000 }

/-- Sample decryption RPC used in witnesses. -/
def decryptEx (s : String) : Option String := some ("dec:" ++ s)

/-! ## Theorems -/

/-- Inversion of the callback receiver success path: a success response is
only produced with the update object of `callbackUpdate`, on a meeting that
is not completed, with a matching token. -/
theorem n8nCallback_success_inv (req : CallbackRequest) (m : MeetingRow)
    (u : MeetingUpdate)
    (h : n8nCallback req (some m) = CallbackResult.successResp u) :
    u = callbackUpdate req ∧ m.processing_status ≠ "completed" ∧
    m.n8n_callback_token = presentedToken req := by
  unfold n8nCallback at h
  by_cases htok : m.n8n_callback_token = presentedToken req <;>
    by_cases hcomp : m.processing_status = "completed" <;>
    split_ifs at h <;> simp_all

/-- C1 counterexample: a callback against a completed meeting that presents
a token different from the stored one is answered with the invalid-token
error response, not with the success-with-duplicate-marker response, so the
claimed behaviour does not hold for every presented token value. -/
theorem completed_meeting_wrong_token_rejected :
    n8nCallback { reqBase with callback_token := some "tok-b" } (some mCompleted)
      = CallbackResult.errorResp "Invalid callback token" := by decide

/-- C1 amended: against a completed meeting the callback receiver never
issues a field mutation, and it returns the success-with-duplicate-marker
response exactly when the request carries truthy identifiers and the
presented token equals the stored token; otherwise it returns an error. -/
theorem completed_meeting_no_mutation_duplicate_iff_token_match
    (req : CallbackRequest) (m : MeetingRow)
    (hm : m.processing_status = "completed") :
    (∀ u, n8nCallback req (some m) ≠ CallbackResult.successResp u) ∧
    (n8nCallback req (some m) = CallbackResult.duplicateResp ↔
      (jsTruthyStr (presentedMeetingId req) = true ∧
       jsTruthyStr (presentedToken req) = true ∧
       m.n8n_callback_token = presentedToken req)) := by
  unfold n8nCallback
  by_cases htok : m.n8n_callback_token = presentedToken req <;>
    split_ifs <;> simp_all

/-- C1 witness: with a matching token a second callback against the
completed meeting receives the duplicate-ignored response. -/
theorem completed_meeting_duplicate_witness :
    n8nCallback reqBase (some mCompleted) = CallbackResult.duplicateResp :=
  (completed_meeting_no_mutation_duplicate_iff_token_match reqBase mCompleted
    rfl).2.mpr ⟨by decide, by decide, by decide⟩

/-- C2 counterexample: the retry endpoint moves a completed meeting back to
the processing status, so completed is not terminal. -/
theorem retry_moves_completed_meeting_to_processing :
    mCompleted.processing_status = "completed" ∧
    retryN8nForward true true true (some true) (some mCompleted)
        (some (some "https://n8n.example/hook")) true
      = RetryResult.forwarded { mCompleted with processing_status := "processing" } := by
  decide

/-- C2 amended: the callback receiver only mutates meetings that are not
completed and only writes the statuses completed or failed, the webhook
relay creates meetings as pending and forwards them as processing, but the
retry endpoint sets the status to processing unconditionally, for every
current status including completed. -/
theorem status_transitions_and_retry_override :
    (∀ req m u, n8nCallback req (some m) = CallbackResult.successResp u →
       m.processing_status ≠ "completed" ∧
       (u.processing_status = "completed" ∨ u.processing_status = "failed")) ∧
    (∀ a b c d e, (webhookCreateMeeting a b c d e).processing_status = "pending") ∧
    (∀ m, (webhookForwardUpdate m).processing_status = "processing") ∧
    (∀ m url, jsTruthyStr url = true →
       retryN8nForward true true true (some true) (some m) (some url) true
         = RetryResult.forwarded { m with processing_status := "processing" }) := by
  refine ⟨?_, fun a b c d e => rfl, fun m => rfl, ?_⟩
  · intro req m u h
    obtain ⟨rfl, hne, -⟩ := n8nCallback_success_inv req m u h
    refine ⟨hne, ?_⟩
    simp only [callbackUpdate]
    split <;> simp
  · intro m url hurl
    unfold retryN8nForward
    simp [hurl]

/-- C2 witness: the retry endpoint applied to a processing meeting with a
configured target URL forwards and writes the processing status. -/
theorem retry_forward_witness :
    retryN8nForward true true true (some true) (some mProcessing)
        (some (some "https://n8n.example/hook")) true
      = RetryResult.forwarded { mProcessing with processing_status := "processing" } :=
  status_transitions_and_retry_override.2.2.2 mProcessing
    (some "https://n8n.example/hook") (by decide)

/-- C3 counterexample: an HTTP 200 body with status false and no error
object is accepted by the legacy header-signed Livespace check, so the
claim does not hold for both variants. -/
theorem legacy_check_accepts_status_false_body :
    lsStatusFalse4.status = some false ∧ lsStatusFalse4.httpStatus = 200 ∧
    legacyLivespaceCheck lsStatusFalse4 = LsCheck.accept := by decide

/-- C3 amended: on HTTP success both variants reject a present error
object; the session-signed paths additionally reject a status-false body,
through the proxy check and through the session helper; the legacy
header-signed check accepts every HTTP 200 body without an error object,
including status-false bodies. -/
theorem livespace_failure_classification :
    (∀ r e, jsOk r.httpStatus = true → r.error = some e →
       legacyLivespaceCheck r = LsCheck.rejectError e ∧
       proxyLivespaceCheck r = LsCheck.rejectError e) ∧
    (∀ r, jsOk r.httpStatus = true → r.error = none → r.status = some false →
       proxyLivespaceCheck r = LsCheck.rejectStatusFalse r.result) ∧
    (∀ tokResp apiResp ts, getLivespaceAuth tokResp = Except.ok ts →
       jsOk apiResp.httpStatus = true → apiResp.status = some false →
       (callLivespaceApi tokResp apiResp).1
         = Except.error ("Livespace API error: code " ++ codeStr apiResp.result)) ∧
    (∀ r, jsOk r.httpStatus = true → r.error = none →
       legacyLivespaceCheck r = LsCheck.accept) := by
  refine ⟨?_, ?_, ?_, ?_⟩
  · intro r e hok he
    unfold legacyLivespaceCheck proxyLivespaceCheck
    simp [hok, he]
  · intro r hok he hs
    unfold proxyLivespaceCheck
    simp [hok, he, hs]
  · intro tokResp apiResp ts hga hok hs
    unfold callLivespaceApi
    rw [hga]
    simp [hok, hs]
  · intro r hok he
    unfold legacyLivespaceCheck
    simp [hok, he]

/-- C3 witness: concrete classifications for an error body and for two
status-false bodies under both variants. -/
theorem livespace_failure_classification_witness :
    legacyLivespaceCheck lsErrBody = LsCheck.rejectError lsErrEx ∧
    proxyLivespaceCheck lsErrBody = LsCheck.rejectError lsErrEx ∧
    proxyLivespaceCheck lsStatusFalse7 = LsCheck.rejectStatusFalse (some 7) ∧
    legacyLivespaceCheck lsStatusFalse7 = LsCheck.accept :=
  ⟨(livespace_failure_classification.1 lsErrBody lsErrEx (by decide) rfl).1,
   (livespace_failure_classification.1 lsErrBody lsErrEx (by decide) rfl).2,
   livespace_failure_classification.2.1 lsStatusFalse7 (by decide) rfl rfl,
   livespace_failure_classification.2.2.2 lsStatusFalse7 (by decide) rfl⟩

/-- C4: on a meeting that is not completed, a presented token different
from the stored one makes the callback receiver answer with an error
response, issuing no meeting update, whatever the rest of the payload. -/
theorem callback_token_mismatch_rejected (req : CallbackRequest)
    (m : MeetingRow) (hne : m.processing_status ≠ "completed")
    (hmm : m.n8n_callback_token ≠ presentedToken req) :
    ∃ msg, n8nCallback req (some m) = CallbackResult.errorResp msg := by
  unfold n8nCallback
  split_ifs <;> simp_all

/-- C4 witness: a stored lower-case token abc rejects the upper-case
presentation ABC, showing the comparison is case sensitive. -/
theorem callback_token_mismatch_rejected_witness :
    ∃ msg, n8nCallback reqUpper (some mStoredLower)
      = CallbackResult.errorResp msg :=
  callback_token_mismatch_rejected reqUpper mStoredLower (by decide) (by decide)

/-- C5: the matcher builds the four candidate queries in strict specificity
order, and on the two example scenarios with the query pipeline 1, stage 5,
status open it returns the meeting type of the more specific scenario, not
the pipeline-only one; NULL fields match exactly rather than as
wildcards. -/
theorem matcher_specificity_order_example :
    pipedriveQueries 1 dd5 =
      [ { pipeline_id := 1, stage_id := some 5, deal_status := some "open" },
        { pipeline_id := 1, stage_id := some 5, deal_status := none },
        { pipeline_id := 1, stage_id := none, deal_status := some "open" },
        { pipeline_id := 1, stage_id := none, deal_status := none } ] ∧
    matchMeetingType db5 "org1" (some dd5) = some 202 ∧
    (matchMeetingType db5 "org1" (some dd5) == some 101) = false ∧
    scenarioMatches "org1"
      { pipeline_id := 1, stage_id := some 5, deal_status := some "open" }
      sPipelineOnly = false ∧
    scenarioMatches "org1"
      { pipeline_id := 1, stage_id := none, deal_status := none }
      sPipelineStage = false := by
  decide

/-- C6: every successful callback stores the overall score as the clamp of
the input into the interval from 0 to 100, and a missing score leaves the
field unwritten. -/
theorem overall_score_clamped (req : CallbackRequest) (m : MeetingRow)
    (u : MeetingUpdate)
    (h : n8nCallback req (some m) = CallbackResult.successResp u) :
    u.overall_score = req.overall_score.map clampScore ∧
    ∀ y, u.overall_score = some y → 0 ≤ y ∧ y ≤ 100 := by
  obtain ⟨rfl, -, -⟩ := n8nCallback_success_inv req m u h
  constructor
  · simp [callbackUpdate]
  · intro y hy
    simp [callbackUpdate, Option.map_eq_some'] at hy
    obtain ⟨x, hx, rfl⟩ := hy
    unfold clampScore
    exact ⟨le_max_left 0 _, max_le (by norm_num) (min_le_left 100 x)⟩

/-- C6 witness: input 150 stores 100, input minus twenty stores 0, and an
absent score stays unwritten. -/
theorem overall_score_clamped_witness :
    (callbackUpdate req150).overall_score = req150.overall_score.map clampScore ∧
    (callbackUpdate req150).overall_score = some 100 ∧
    (callbackUpdate reqNeg20).overall_score = some 0 ∧
    (callbackUpdate reqBase).overall_score = none :=
  ⟨(overall_score_clamped req150 mProcessing (callbackUpdate req150)
      (by decide)).1,
   by decide, by decide, by decide⟩

/-- C7: the refresh decision fires exactly when the expiry is absent or
less than five minutes away; with four minutes left a refresh call is
attempted, and with ten minutes left no refresh occurs and the decrypted
stored token is returned unchanged with the refreshed flag false. -/
theorem google_refresh_window :
    (∀ now : Int, shouldRefresh (some (now + 4 * 60 * 1000)) now = true) ∧
    (∀ now : Int, shouldRefresh (some (now + 10 * 60 * 1000)) now = false) ∧
    (∀ now : Int, shouldRefresh none now = true) ∧
    (∀ integ now decrypt r, shouldRefresh integ.token_expires_at now = false →
       refreshGoogleToken integ now decrypt r
         = (GoogleTokenResult.ok (decrypt integ.access_token_encrypted) false,
            false)) ∧
    (∀ integ now decrypt r rt, shouldRefresh integ.token_expires_at now = true →
       decrypt integ.refresh_token_encrypted = some rt →
       (refreshGoogleToken integ now decrypt r).2 = true) := by
  refine ⟨?_, ?_, fun now => rfl, ?_, ?_⟩
  · intro now; simp [shouldRefresh]
  · intro now; simp [shouldRefresh]
  · intro integ now decrypt r h
    unfold refreshGoogleToken
    simp [h]
  · intro integ now decrypt r rt h hd
    unfold refreshGoogleToken
    rcases r with _ | ⟨tok, e⟩ <;> simp [h, hd]

/-- C7 witness: with expiry four minutes after time zero the refresh call
is attempted; with ten minutes the stored token is decrypted and returned
with the refreshed flag false. -/
theorem google_refresh_window_witness :
    shouldRefresh integ4min.token_expires_at 0 = true ∧
    shouldRefresh integ10min.token_expires_at 0 = false ∧
    refreshGoogleToken integ10min 0 decryptEx none
      = (GoogleTokenResult.ok (some "dec:enc-acc") false, false) ∧
    (refreshGoogleToken integ4min 0 decryptEx none).2 = true :=
  ⟨by decide, by decide,
   (google_refresh_window.2.2.2.1 integ10min 0 decryptEx none (by decide)).trans
     (by decide),
   google_refresh_window.2.2.2.2 integ4min 0 decryptEx none "dec:enc-ref"
     (by decide) (by decide)⟩

/-- C8: a getToken body with status false and a numeric result code makes
the session handshake fail with an error message naming that code, and the
signed follow-up request is never attempted, whatever response it would
have received. -/
theorem getToken_status_false_aborts_handshake
    (tokResp apiResp : LsResponse) (c : Int)
    (hok : jsOk tokResp.httpStatus = true)
    (hs : tokResp.status = some false)
    (hr : tokResp.result = some c) :
    callLivespaceApi tokResp apiResp =
      (Except.error ("Livespace getToken error: code " ++ toString c), false) := by
  unfold callLivespaceApi getLivespaceAuth
  simp [hok, hs, hr, codeStr]

/-- C8 witness: the body with status false and result 4 aborts the
handshake with the message naming code 4 and no follow-up attempt. -/
theorem getToken_status_false_aborts_handshake_witness :
    callLivespaceApi lsStatusFalse4 lsApiAny
      = (Except.error "Livespace getToken error: code 4", false) :=
  (getToken_status_false_aborts_handshake lsStatusFalse4 lsApiAny 4
    (by decide) rfl rfl).trans rfl

/-- C9: in every successful callback the stored processing status is failed
exactly when the request status is the string failed, and completed in
every other case, including an absent status. -/
theorem callback_status_defaults_completed (req : CallbackRequest)
    (m : MeetingRow) (u : MeetingUpdate)
    (h : n8nCallback req (some m) = CallbackResult.successResp u) :
    u.processing_status
      = if req.status = some "failed" then "failed" else "completed" := by
  obtain ⟨rfl, -, -⟩ := n8nCallback_success_inv req m u h
  simp only [callbackUpdate]
  rcases req.status with _ | v
  · simp [effectiveStatus]
  · by_cases hv : v = "" <;> by_cases hf : v = "failed" <;>
      simp_all [effectiveStatus]

/-- C9 witness: the status error stores completed, absence of a status
stores completed, and the status failed stores failed. -/
theorem callback_status_defaults_completed_witness :
    (callbackUpdate reqStatusError).processing_status = "completed" ∧
    (callbackUpdate reqBase).processing_status = "completed" ∧
    (callbackUpdate reqStatusFailed).processing_status = "failed" :=
  ⟨(callback_status_defaults_completed reqStatusError mProcessing
      (callbackUpdate reqStatusError) (by decide)).trans (by decide),
   by decide, by decide⟩

/-- C10: the matcher result never depends on the livespace scenarios table,
while the payload assembler fold does export livespace scenarios, so both
flavours exist in the model and only the pipedrive one feeds the match. -/
theorem matcher_ignores_livespace_scenarios :
    (∀ db ls org dd,
       matchMeetingType { db with livespace_scenarios := ls } org dd
         = matchMeetingType db org dd) ∧
    (foldScenarios [mtEx] [] [lsScenEx] == foldScenarios [mtEx] [] []) = false := by
  exact ⟨fun db ls org dd => rfl, by decide⟩
